import Mathlib

/-!
Shallow embedding of `translate/convert/oo2po.py` (conversion of OpenOffice.org
SDF localization records to Gettext PO catalogs) and verification of its
specification.

The repository source under verification is the single module `oo2po.py`.
Its collaborators `translate.storage.oo` (record/line data model, `makekey`)
and `translate.storage.po` (`pounit`, `pofile`) are part of the wider project
but are not in the sources verified here; where one of their behaviours is
load-bearing it is modelled from the specification and marked as such in the
doc comment.
-/

namespace Oo2Po

/-- Python truthiness of an optional string: `None` and `""` are falsy. -/
def pyTruthy : Option String → Bool
  | none => false
  | some s => s ≠ ""

/-- Python `a or b` on strings: the first operand if truthy, else the second. -/
def pyOrStr (a b : String) : String :=
  if a ≠ "" then a else b

/-- Python `str.isdigit`: true iff the string is non-empty and every
character is a digit. -/
def pyIsdigit (s : String) : Bool :=
  s ≠ "" && s.toList.all Char.isDigit

/-- Python `str.strip()`: the string with leading and trailing whitespace
removed. -/
def pyStrip (s : String) : String :=
  String.mk
    (((s.toList.dropWhile Char.isWhitespace).reverse.dropWhile
      Char.isWhitespace).reverse)

/-- Modelled from the spec: a LanguageProjection (`oo.ooline`) is one
language's rendering of a record, with the three translatable subfields
`text`, `quickhelptext` and `title` (each possibly empty) and an accessor
for the owning record's structural key (an ordered tuple of key fields).
`translate.storage.oo` is not under the verified sources. -/
structure ooline where
  text : String := ""
  quickhelptext : String := ""
  title : String := ""
  keyparts : List String := []
deriving Repr, DecidableEq, Inhabited

/-- `ooline.getkey`: the owning record's structural key. -/
def ooline.getkey (l : ooline) : List String :=
  l.keyparts

/-- Modelled from the spec: the synthetic all-empty projection `oo.ooline()`
used for missing languages (all three subfields empty). -/
def ooline.blank : ooline := {}

/-- Modelled from the spec: a MultilingualRecord (`oo.oounit`) has a mapping
from language tag to projection and the underlying ordered lines (the first
line's key identifies the record in diagnostics). -/
structure oounit where
  languages : List (String × ooline) := []
  lines : List ooline := []
deriving Repr, DecidableEq, Inhabited

/-- Modelled from the spec: the parsed source collection (`oo.oofile`) with
its filename, the language tags present anywhere in the collection, and the
ordered records. -/
structure oofile where
  filename : String := ""
  languages : List String := []
  units : List oounit := []
deriving Repr, DecidableEq, Inhabited

/-- The three translatable subfields, in the fixed order used by the code. -/
inductive Subkey where
  | text
  | quickhelptext
  | title
deriving Repr, DecidableEq, Inhabited

/-- `getattr(projection, subkey)`: read a named subfield off a projection. -/
def Subkey.get : Subkey → ooline → String
  | .text, l => l.text
  | .quickhelptext, l => l.quickhelptext
  | .title, l => l.title

/-- The attribute name of a subfield, as used in location references. -/
def Subkey.name : Subkey → String
  | .text => "text"
  | .quickhelptext => "quickhelptext"
  | .title => "title"

/-- The fixed iteration order `("text", "quickhelptext", "title")`. -/
def subkeyOrder : List Subkey :=
  [Subkey.text, Subkey.quickhelptext, Subkey.title]

/-- Modelled from the spec: a TranslationUnit (`po.pounit`) carries a source
string, a target string, an ordered list of location references, developer
notes (text paired with their origin tag) and an encoding tag.
`translate.storage.po` is not under the verified sources. -/
structure pounit where
  source : String := ""
  target : String := ""
  locations : List String := []
  notes : List (String × String) := []
  encoding : String := ""
deriving Repr, DecidableEq, Inhabited

/-- Modelled from the spec: `pounit.addlocation` appends a location
reference. -/
def pounit.addlocation (u : pounit) (loc : String) : pounit :=
  { u with locations := u.locations ++ [loc] }

/-- Modelled from the spec: `pounit.addnote` appends a note tagged with its
origin. -/
def pounit.addnote (u : pounit) (text origin : String) : pounit :=
  { u with notes := u.notes ++ [(text, origin)] }

/-- A diagnostic emitted through the module logger. -/
inductive LogEntry where
  | error (msg : String)
  | warning (msg : String)
deriving Repr, DecidableEq, Inhabited

/-- The `oo2po` converter configuration: source and target language tags,
blank-target (POT) mode, and long-key mode. -/
structure oo2po where
  sourcelanguage : String
  targetlanguage : Option String := none
  blankmsgstr : Bool := false
  long_keys : Bool := false
deriving Repr, DecidableEq

/-- Modelled from the spec: `oo.makekey` (KeyBuilder) derives a textual key
from the structural key parts; long-key mode produces a fully-qualified key,
short-key mode a shorter one drawn from a subset of the parts.
`translate.storage.oo` is not under the verified sources. -/
def oo.makekey (keyparts : List String) (long_keys : Bool) : String :=
  if long_keys then String.intercalate "/" keyparts
  else String.intercalate "." (keyparts.drop 1)

/-- `oo2po.maketargetunit`: makes a base unit out of a subkey of two parts,
or `none` when the source subfield is empty. -/
def oo2po.maketargetunit (part1 part2 translators_comment : ooline)
    (key : String) (subkey : Subkey) : Option pounit :=
  let text1 := subkey.get part1
  if text1 = "" then none
  else
    let text2 := subkey.get part2
    let unit : pounit := { source := text1, encoding := "UTF-8" }
    let unit := { unit with target := text2 }
    let unit := unit.addlocation (key ++ "." ++ subkey.name)
    let unit :=
      if pyStrip (subkey.get translators_comment) ≠ "" then
        unit.addnote (subkey.get translators_comment) "developer"
      else unit
    some unit

/-- `oo2po.convertelement`: convert one record into a list of base units,
together with the diagnostics logged while doing so. -/
def oo2po.convertelement (self : oo2po) (theoo : oounit) :
    List pounit × List LogEntry :=
  match theoo.languages.lookup self.sourcelanguage with
  | none =>
      ([], [LogEntry.error
        (String.intercalate "/" (theoo.lines.headD default).getkey
          ++ " language not found: " ++ self.sourcelanguage)])
  | some part1 =>
      let part2 :=
        if self.blankmsgstr then ooline.blank
        else
          ((self.targetlanguage.bind
            (fun t => theoo.languages.lookup t)).getD ooline.blank)
      let translators_comment :=
        (theoo.languages.lookup "x-comment").getD ooline.blank
      let key := oo.makekey part1.getkey self.long_keys
      (subkeyOrder.filterMap
        (fun subkey =>
          oo2po.maketargetunit part1 part2 translators_comment key subkey),
       [])

/-- Modelled from the spec: the header bug-report URL is a deterministic
template over the input filename (fixed component/subcomponent/form fields,
free-text field carrying the filename); `urllib.parse.urlencode` is outside
the verified sources, so the encoded query is modelled as plain
concatenation. -/
def bugUrl (filename : String) : String :=
  "http://qa.openoffice.org/issues/enter_bug.cgi?subcomponent=ui&comment=&short_desc=Localization+issue+in+file:+"
    ++ filename ++ "&component=l10n&form_name=enter_issue"

/-- Modelled from the spec: the output Catalog (`po.pofile`) with its header
metadata, declared language tags, the ordered units, and — because duplicate
resolution itself lives in `translate.storage.po`, outside the verified
sources, and no verified claim depends on its merging semantics — a record
of which duplicate policy was applied to it. -/
structure pofile where
  units : List pounit := []
  report_msgid_bugs_to : String := ""
  x_accelerator_marker : String := ""
  x_merge_on : String := ""
  headernotes : List (String × String) := []
  sourcelanguage : String := ""
  targetlanguage : Option String := none
  appliedDuplicateStyle : Option String := none
deriving Repr, DecidableEq, Inhabited

/-- Modelled from the spec: `pofile.removeduplicates` runs the duplicate
resolution pass under the given policy; the model records the policy that
was applied (the merging itself is external code). -/
def pofile.removeduplicates (f : pofile) (duplicatestyle : String) : pofile :=
  { f with appliedDuplicateStyle := some duplicatestyle }

/-- `pofile.isempty`: whether the catalog holds no units. -/
def pofile.isempty (f : pofile) : Bool :=
  f.units.isEmpty

/-- `oo2po.convertstore`: converts an entire oo file — header synthesis,
per-record conversion in source order, then one duplicate-resolution pass
(defaulting to the msgctxt style). Returns the catalog and the diagnostics
logged along the way. -/
def oo2po.convertstore (self : oo2po) (theoofile : oofile)
    (duplicatestyle : String := "msgctxt") : pofile × List LogEntry :=
  let results := theoofile.units.map (fun theoo => self.convertelement theoo)
  let thetargetfile : pofile :=
    { units := (results.map Prod.fst).flatten
      report_msgid_bugs_to := bugUrl theoofile.filename
      x_accelerator_marker := "~"
      x_merge_on := "location"
      headernotes := [("extracted from " ++ theoofile.filename, "developer")]
      sourcelanguage := self.sourcelanguage
      targetlanguage := self.targetlanguage }
  (thetargetfile.removeduplicates duplicatestyle,
   (results.map Prod.snd).flatten)

/-- The commandline options relevant to `verifyoptions`. -/
structure Options where
  pot : Bool := false
  targetlanguage : Option String := none
deriving Repr, DecidableEq, Inhabited

/-- `verifyoptions`: verifies the commandline options, raising `ValueError`
when the target language is missing outside POT mode. -/
def verifyoptions (options : Options) : Except String Unit :=
  if !options.pot && !(pyTruthy options.targetlanguage) then
    Except.error
      "You must specify the target language unless generating POT files (-P)"
  else
    Except.ok ()

/-- Whether an `Except` result is the raising branch. -/
def raised : Except String Unit → Bool
  | Except.error _ => true
  | Except.ok _ => false

/-- `convertoo`: the top-level conversion. The file reading and `parse` call
are I/O performed by the driver, so the embedding takes the already-parsed
store; serialization is likewise external, so the produced catalog is
returned together with the diagnostics and the 0/1 return code (`0` when the
catalog is empty and nothing would be written). -/
def convertoo (inputstore : oofile) (pot : Bool := false)
    (sourcelanguage : Option String := none)
    (targetlanguage : Option String := none)
    (duplicatestyle : String := "msgid_comment")
    (multifilestyle : String := "single") :
    pofile × List LogEntry × Nat :=
  let inputfilename := inputstore.filename
  let sl : String :=
    if pyTruthy sourcelanguage then sourcelanguage.getD ""
    else
      let testlangtype :=
        pyOrStr (targetlanguage.getD "") (inputstore.languages.headD "")
      if pyIsdigit testlangtype then "01" else "en-US"
  let logs1 : List LogEntry :=
    if inputstore.languages.contains sl then []
    else
      [LogEntry.warning
        ("sourcelanguage " ++ sl ++ " not found in inputfile " ++ inputfilename
          ++ " (contains " ++ String.intercalate ", " inputstore.languages
          ++ ")")]
  let logs2 : List LogEntry :=
    if pyTruthy targetlanguage
        && !(inputstore.languages.contains (targetlanguage.getD "")) then
      [LogEntry.warning
        ("targetlanguage " ++ targetlanguage.getD ""
          ++ " not found in inputfile " ++ inputfilename ++ " (contains "
          ++ String.intercalate ", " inputstore.languages ++ ")")]
    else []
  let convertor : oo2po :=
    { sourcelanguage := sl
      targetlanguage := targetlanguage
      blankmsgstr := pot
      long_keys := multifilestyle ≠ "single" }
  let result := convertor.convertstore inputstore duplicatestyle
  (result.1, logs1 ++ logs2 ++ result.2,
   if result.1.isempty then 0 else 1)

/-! ### Sample data used by concrete witnesses -/

/-- A source projection with a non-empty `text` subfield. -/
def srcLine : ooline := { text := "Hello", keyparts := ["a", "1", "x"] }

/-- A target projection with a non-empty `text` subfield. -/
def tgtLine : ooline := { text := "Bonjour", keyparts := ["a", "1", "x"] }

/-- A comment projection whose `text` carries whitespace around content. -/
def wsComment : ooline := { text := "  note  " }

/-- A projection whose three subfields are all empty. -/
def emptyLine : ooline := { keyparts := ["a", "1", "x"] }

/-- A converter from en-US to fr, default modes. -/
def cfgFr : oo2po := { sourcelanguage := "en-US", targetlanguage := some "fr" }

/-- A record carrying both the source and the target language. -/
def recBoth : oounit :=
  { languages := [("en-US", srcLine), ("fr", tgtLine)], lines := [srcLine] }

/-- A record whose source-language projection has all subfields empty. -/
def recEmptySource : oounit :=
  { languages := [("en-US", emptyLine), ("fr", tgtLine)], lines := [emptyLine] }

/-- A record that does not carry the source language at all. -/
def recNoSource : oounit :=
  { languages := [("fr", tgtLine)], lines := [tgtLine] }

/-- A record that carries the source language but not the target language. -/
def recNoTarget : oounit :=
  { languages := [("en-US", srcLine)], lines := [srcLine] }

/-- A small parsed store. -/
def sampleStore : oofile :=
  { filename := "f.sdf", languages := ["en-US", "fr"], units := [recBoth] }

/-- A store whose first language tag is numeric. -/
def numStore : oofile :=
  { filename := "n.sdf", languages := ["33"], units := [] }

/-- The unit produced from `srcLine`/`tgtLine`/`wsComment` at key `"k"`. -/
def notedUnit : pounit :=
  { source := "Hello", target := "Bonjour", locations := ["k.text"],
    notes := [("  note  ", "developer")], encoding := "UTF-8" }

/-! ### Helper lemmas -/

/-- Every subfield of the synthetic blank projection is empty. -/
theorem Subkey.get_blank (sk : Subkey) : sk.get ooline.blank = "" := by
  cases sk <;> rfl

/-- Characterization of a successfully produced unit: its source, target,
single location, encoding and notes are determined by the projections and
the subfield, and the source subfield is necessarily non-empty. -/
theorem maketargetunit_some_spec (part1 part2 tc : ooline) (key : String)
    (sk : Subkey) (u : pounit)
    (h : oo2po.maketargetunit part1 part2 tc key sk = some u) :
    sk.get part1 ≠ "" ∧ u.source = sk.get part1 ∧ u.target = sk.get part2 ∧
    u.locations = [key ++ "." ++ sk.name] ∧ u.encoding = "UTF-8" ∧
    u.notes = (if pyStrip (sk.get tc) ≠ "" then [(sk.get tc, "developer")]
               else []) := by
  by_cases h1 : sk.get part1 = ""
  · simp [oo2po.maketargetunit, h1] at h
  · by_cases h2 : pyStrip (sk.get tc) = ""
    · simp [oo2po.maketargetunit, h1, h2, pounit.addlocation,
        pounit.addnote] at h
      subst h
      simp [h1, h2]
    · simp [oo2po.maketargetunit, h1, h2, pounit.addlocation,
        pounit.addnote] at h
      subst h
      simp [h1, h2]

/-! ### Claims -/

/-- Claim C1: a translation unit is produced for a subfield only if the
source projection's subfield is non-empty — an empty source subfield yields
no unit regardless of the target subfield's content — and a record whose
source projection has all three subfields empty yields zero units. -/
theorem unit_only_if_nonempty_source :
    (∀ (part1 part2 tc : ooline) (key : String) (sk : Subkey),
      sk.get part1 = "" →
      oo2po.maketargetunit part1 part2 tc key sk = none)
    ∧ ∀ (self : oo2po) (theoo : oounit) (part1 : ooline),
        theoo.languages.lookup self.sourcelanguage = some part1 →
        part1.text = "" → part1.quickhelptext = "" → part1.title = "" →
        (self.convertelement theoo).1 = [] := by
  constructor
  · intro part1 part2 tc key sk h
    simp [oo2po.maketargetunit, h]
  · intro self theoo part1 hl h1 h2 h3
    have hget : ∀ sk : Subkey, sk.get part1 = "" := by
      intro sk; cases sk <;> assumption
    have hnone : ∀ (p2 tc : ooline) (key : String) (sk : Subkey),
        oo2po.maketargetunit part1 p2 tc key sk = none := by
      intro p2 tc key sk
      simp [oo2po.maketargetunit, hget sk]
    simp [oo2po.convertelement, hl, subkeyOrder, List.filterMap_cons, hnone]

/-- Claim C1 witness: concrete empty-source instances. -/
theorem unit_only_if_nonempty_source_witness :
    oo2po.maketargetunit emptyLine tgtLine wsComment "k" Subkey.text = none
    ∧ (cfgFr.convertelement recEmptySource).1 = [] :=
  ⟨unit_only_if_nonempty_source.1 emptyLine tgtLine wsComment "k" Subkey.text
    rfl,
   unit_only_if_nonempty_source.2 cfgFr recEmptySource emptyLine (by decide)
    rfl rfl rfl⟩

/-- Claim C2: a record not carrying the source language yields the empty
unit list together with a logged error naming the record's key and the
missing language, and the conversion of the remaining records continues:
the catalog built by `convertstore` is exactly the concatenation, in source
order, of what every record (before and after the failing one)
contributes, and likewise for the diagnostics. -/
theorem missing_source_language_recovered :
    (∀ (self : oo2po) (theoo : oounit),
      theoo.languages.lookup self.sourcelanguage = none →
      self.convertelement theoo =
        ([], [LogEntry.error
          (String.intercalate "/" (theoo.lines.headD default).getkey
            ++ " language not found: " ++ self.sourcelanguage)]))
    ∧ ∀ (self : oo2po) (f : oofile) (ds : String),
        (self.convertstore f ds).1.units =
          (f.units.map (fun theoo => (self.convertelement theoo).1)).flatten
        ∧ (self.convertstore f ds).2 =
          (f.units.map
            (fun theoo => (self.convertelement theoo).2)).flatten := by
  constructor
  · intro self theoo h
    simp [oo2po.convertelement, h]
  · intro self f ds
    constructor <;>
      simp [oo2po.convertstore, pofile.removeduplicates, Function.comp_def]

/-- Claim C2 witness: a concrete record without the source language. -/
theorem missing_source_language_recovered_witness :
    cfgFr.convertelement recNoSource =
      ([], [LogEntry.error
        (String.intercalate "/" (recNoSource.lines.headD default).getkey
          ++ " language not found: " ++ cfgFr.sourcelanguage)]) :=
  missing_source_language_recovered.1 cfgFr recNoSource (by decide)

/-- Claim C10: when a developer note is attached, its text is the comment
projection's subfield exactly as stored, without trimming — the trimmed
form is used only in the attachment test. -/
theorem note_text_untrimmed :
    ∀ (part1 part2 tc : ooline) (key : String) (sk : Subkey) (u : pounit),
      oo2po.maketargetunit part1 part2 tc key sk = some u →
      pyStrip (sk.get tc) ≠ "" →
      u.notes = [(sk.get tc, "developer")] := by
  intro part1 part2 tc key sk u h hc
  have hs := maketargetunit_some_spec part1 part2 tc key sk u h
  rw [hs.2.2.2.2.2, if_pos hc]

/-- Claim C10 witness: a comment subfield with surrounding whitespace gives
a note that retains that whitespace. -/
theorem note_text_untrimmed_witness :
    notedUnit.notes = [(Subkey.text.get wsComment, "developer")] :=
  note_text_untrimmed srcLine tgtLine wsComment "k" Subkey.text notedUnit
    (by decide) (by decide)

/-- Claim C3: with blank-target mode off, a record carrying the source
language but not the configured target language is converted against the
synthetic all-empty target projection: nothing is logged for it, and every
emitted unit has a non-empty source and an empty target. -/
theorem missing_target_language_blank :
    ∀ (self : oo2po) (theoo : oounit) (part1 : ooline),
      self.blankmsgstr = false →
      theoo.languages.lookup self.sourcelanguage = some part1 →
      self.targetlanguage.bind (fun t => theoo.languages.lookup t) = none →
      (self.convertelement theoo).2 = [] ∧
      ∀ u ∈ (self.convertelement theoo).1, u.source ≠ "" ∧ u.target = "" := by
  intro self theoo part1 hb hs ht
  simp only [oo2po.convertelement, hs, hb, ht, Bool.false_eq_true, if_false,
    Option.getD_none]
  refine ⟨by trivial, ?_⟩
  intro u hu
  rw [List.mem_filterMap] at hu
  obtain ⟨sk, -, hsk⟩ := hu
  have h := maketargetunit_some_spec part1 ooline.blank _ _ sk u hsk
  exact ⟨h.2.1 ▸ h.1, h.2.2.1.trans (Subkey.get_blank sk)⟩

/-- Claim C3 witness: a concrete record carrying en-US but not fr yields no
diagnostics and a first unit with non-empty source and empty target. -/
theorem missing_target_language_blank_witness :
    (cfgFr.convertelement recNoTarget).2 = [] ∧
    ((cfgFr.convertelement recNoTarget).1.headD default).source ≠ "" ∧
    ((cfgFr.convertelement recNoTarget).1.headD default).target = "" :=
  ⟨(missing_target_language_blank cfgFr recNoTarget srcLine rfl (by decide)
      (by decide)).1,
   (missing_target_language_blank cfgFr recNoTarget srcLine rfl (by decide)
      (by decide)).2 _ (by decide)⟩

/-- Claim C4: in blank-target (POT) mode every emitted unit's target is the
empty string, for every record, whether or not the target language is
present in the record's projections. -/
theorem blank_target_mode_empty_targets :
    ∀ (self : oo2po) (theoo : oounit),
      self.blankmsgstr = true →
      ∀ u ∈ (self.convertelement theoo).1, u.target = "" := by
  intro self theoo hb u hu
  cases hs : theoo.languages.lookup self.sourcelanguage with
  | none =>
      rw [oo2po.convertelement] at hu
      simp [hs] at hu
  | some part1 =>
      simp only [oo2po.convertelement, hs, hb, if_true] at hu
      rw [List.mem_filterMap] at hu
      obtain ⟨sk, -, hsk⟩ := hu
      have h := maketargetunit_some_spec part1 ooline.blank _ _ sk u hsk
      exact h.2.2.1.trans (Subkey.get_blank sk)

/-- Claim C4 witness: POT mode on a record that does carry the target
language still yields an empty target for its first unit. -/
theorem blank_target_mode_empty_targets_witness :
    ((({ cfgFr with blankmsgstr := true } :
        oo2po).convertelement recBoth).1.headD default).target = "" :=
  blank_target_mode_empty_targets { cfgFr with blankmsgstr := true } recBoth
    rfl _ (by decide)

/-- For a family of optional units whose locations are determined by a
function of the index, the filter-mapped list's locations follow the index
list in order, along a sublist of the indices. -/
theorem filterMap_locations_sublist {α : Type} (f : α → Option pounit)
    (g : α → String)
    (hf : ∀ a u, f a = some u → u.locations = [g a]) :
    ∀ l : List α, ∃ l₂ : List α, List.Sublist l₂ l ∧
      (l.filterMap f).map pounit.locations =
        l₂.map (fun a => [g a]) := by
  intro l
  induction l with
  | nil => exact ⟨[], List.Sublist.refl _, rfl⟩
  | cons a l ih =>
      obtain ⟨l₂, hs, he⟩ := ih
      cases hfa : f a with
      | none =>
          exact ⟨l₂, List.Sublist.cons a hs,
            by simp [List.filterMap_cons, hfa, he]⟩
      | some u =>
          exact ⟨a :: l₂, List.Sublist.cons₂ a hs,
            by simp [List.filterMap_cons, hfa, he, hf a u hfa]⟩

/-- Claim C5: a record that resolves successfully yields between 0 and 3
units, in the fixed subfield order (text, quickhelptext, title), and each
unit carries exactly one location reference, the built key joined to the
subfield name by a dot. -/
theorem resolved_record_units_order_locations :
    ∀ (self : oo2po) (theoo : oounit) (part1 : ooline),
      theoo.languages.lookup self.sourcelanguage = some part1 →
      (self.convertelement theoo).1.length ≤ 3 ∧
      ∃ sks : List Subkey, List.Sublist sks subkeyOrder ∧
        (self.convertelement theoo).1.map pounit.locations =
          sks.map (fun sk =>
            [oo.makekey part1.getkey self.long_keys ++ "." ++ sk.name]) := by
  intro self theoo part1 hs
  simp only [oo2po.convertelement, hs]
  constructor
  · exact le_trans (List.length_filterMap_le _ _) (by rfl)
  · exact filterMap_locations_sublist _ _
      (fun sk u h => (maketargetunit_some_spec _ _ _ _ sk u h).2.2.2.1)
      subkeyOrder

/-- Claim C5 witness: a concrete fully-resolved record. -/
theorem resolved_record_units_order_locations_witness :
    (cfgFr.convertelement recBoth).1.length ≤ 3 ∧
    ∃ sks : List Subkey, List.Sublist sks subkeyOrder ∧
      (cfgFr.convertelement recBoth).1.map pounit.locations =
        sks.map (fun sk =>
          [oo.makekey srcLine.getkey cfgFr.long_keys ++ "." ++ sk.name]) :=
  resolved_record_units_order_locations cfgFr recBoth srcLine (by decide)

/-- Claim C6: an emitted unit carries a developer note if and only if the
corresponding subfield of the comment projection is non-empty after
trimming, and a record with no "x-comment" projection behaves as the
all-empty comment projection, so none of its units carries a note. -/
theorem note_iff_comment_nonblank :
    (∀ (part1 part2 tc : ooline) (key : String) (sk : Subkey) (u : pounit),
      oo2po.maketargetunit part1 part2 tc key sk = some u →
      (u.notes ≠ [] ↔ pyStrip (sk.get tc) ≠ ""))
    ∧ ∀ (self : oo2po) (theoo : oounit),
        theoo.languages.lookup "x-comment" = none →
        ∀ u ∈ (self.convertelement theoo).1, u.notes = [] := by
  constructor
  · intro part1 part2 tc key sk u h
    have hn := (maketargetunit_some_spec part1 part2 tc key sk u h).2.2.2.2.2
    by_cases hc : pyStrip (sk.get tc) = ""
    · rw [hn, if_neg (by simpa using hc)]
      simp [hc]
    · rw [hn, if_pos hc]
      simp [hc]
  · intro self theoo hc u hu
    cases hs : theoo.languages.lookup self.sourcelanguage with
    | none =>
        rw [oo2po.convertelement] at hu
        simp [hs] at hu
    | some part1 =>
        simp only [oo2po.convertelement, hs, hc, Option.getD_none] at hu
        rw [List.mem_filterMap] at hu
        obtain ⟨sk, -, hsk⟩ := hu
        have h := maketargetunit_some_spec part1 _ ooline.blank _ sk u hsk
        rw [h.2.2.2.2.2, if_neg (by simp [Subkey.get_blank sk, pyStrip])]

/-- Claim C6 witness: a unit built with a whitespace-padded comment carries
a note, matching the trimmed-non-emptiness of the comment subfield. -/
theorem note_iff_comment_nonblank_witness :
    notedUnit.notes ≠ [] ↔ pyStrip (Subkey.text.get wsComment) ≠ "" :=
  note_iff_comment_nonblank.1 srcLine tgtLine wsComment "k" Subkey.text
    notedUnit (by decide)

/-- Claim C7 counterexample: calling the top-level `convertoo` without
supplying a duplicate policy runs duplicate resolution with the
"msgid_comment" style, not the context-qualification ("msgctxt") style. -/
theorem convertoo_default_style_counterexample :
    (convertoo sampleStore).1.appliedDuplicateStyle = some "msgid_comment" ∧
    some "msgid_comment" ≠ (some "msgctxt" : Option String) :=
  ⟨rfl, by decide⟩

/-- Claim C7 as amended: when no duplicate policy is supplied,
`convertstore` runs duplicate resolution with the context-qualification
("msgctxt") style as its default, but the top-level `convertoo` defaults to
the "msgid_comment" style instead. -/
theorem default_duplicate_styles :
    ∀ (self : oo2po) (f g : oofile),
      (self.convertstore f).1.appliedDuplicateStyle = some "msgctxt" ∧
      (convertoo g).1.appliedDuplicateStyle = some "msgid_comment" :=
  fun _ _ _ => ⟨rfl, rfl⟩

/-- Claim C8: `verifyoptions` raises exactly when the target language is
unset while POT/template mode is not active; with POT mode active an unset
target language is accepted. -/
theorem verifyoptions_raises_iff :
    ∀ o : Options,
      raised (verifyoptions o) = (!o.pot && !(pyTruthy o.targetlanguage)) := by
  intro o
  cases hb : (!o.pot && !(pyTruthy o.targetlanguage)) <;>
    simp [verifyoptions, hb, raised]

/-- Claim C9: when the caller supplies no source language, it is inferred
from the target language — or, when no target language is given, from the
first language tag of the parsed input collection, or the empty string when
neither exists: an all-digits tag gives the fixed placeholder "01",
anything else the fixed default "en-US". -/
theorem source_language_inference :
    ∀ (store : oofile) (pot : Bool) (sl tl : Option String) (ds ms : String),
      pyTruthy sl = false →
      (convertoo store pot sl tl ds ms).1.sourcelanguage =
        (if pyIsdigit (if pyTruthy tl then tl.getD ""
                       else store.languages.headD "")
         then "01" else "en-US") := by
  intro store pot sl tl ds ms h
  have harg : pyOrStr (tl.getD "") (store.languages.headD "") =
      (if pyTruthy tl then tl.getD "" else store.languages.headD "") := by
    cases tl with
    | none => simp [pyOrStr, pyTruthy]
    | some s => by_cases hs : s = "" <;> simp [pyOrStr, pyTruthy, hs]
  simp only [convertoo, oo2po.convertstore, pofile.removeduplicates, h,
    Bool.false_eq_true, if_false, harg]

/-- Claim C9 witness: no source language given, no target language given,
first input tag "33" (all digits) gives source language "01". -/
theorem source_language_inference_witness :
    (convertoo numStore false none none "msgid_comment"
      "single").1.sourcelanguage = "01" := by
  rw [source_language_inference numStore false none none "msgid_comment"
    "single" rfl]
  decide

end Oo2Po
